import Mathlib

/-!
Verification of the coordination core of the `dawn` distributed crawler /
summarizer fleet.  The Python sources are shallowly embedded: each Python
dict becomes an association list (assignment replaces the binding of an
existing key in place, as a CPython dict does, and otherwise appends),
each set becomes a duplicate-free list, wall-clock times become naturals
(seconds), and every method that reads the clock takes the current time as
an explicit argument.  Network calls are modelled by the messages they
would send; thread interleavings are modelled by sequencing the atomic
(lock-protected) operations.
-/

namespace Dawn

/-! ## Association-list model of Python `dict` and `set` -/

section Dict

variable {κ α : Type} [DecidableEq κ]

/-- `d.get(k)` on a Python dict. -/
def dget : List (κ × α) → κ → Option α
  | [], _ => none
  | p :: rest, k => if p.1 = k then some p.2 else dget rest k

/-- `d[k] = v` on a Python dict: replace the binding of an existing key in
place (CPython keeps the key's position), otherwise append. -/
def dinsert : List (κ × α) → κ → α → List (κ × α)
  | [], k, v => [(k, v)]
  | p :: rest, k, v => if p.1 = k then (k, v) :: rest else p :: dinsert rest k v

/-- `d.pop(k)` (the removal part) on a Python dict. -/
def dremove (d : List (κ × α)) (k : κ) : List (κ × α) :=
  d.filter (fun p => p.1 ≠ k)

/-- The key list of a Python dict, in insertion order. -/
def dkeys (d : List (κ × α)) : List κ :=
  d.map (fun p => p.1)

/-- Bool test `k in d` on a Python dict. -/
def dhas (d : List (κ × α)) (k : κ) : Bool :=
  decide (k ∈ dkeys d)

/-- `s.add(x)` on a Python set (sets hold no duplicates). -/
def sinsert (s : List κ) (x : κ) : List κ :=
  if x ∈ s then s else s ++ [x]

/-- Bool test `x in s` on a Python set. -/
def shas (s : List κ) (x : κ) : Bool :=
  decide (x ∈ s)

/-- `s.remove(x)` / `s.discard(x)` on a Python set. -/
def sremove (s : List κ) (x : κ) : List κ :=
  s.filter (fun y => y ≠ x)

end Dict

/-! ## Shared models (`shared_models.py`) -/

/-- `TaskStatus` enum. -/
inductive TaskStatus
  | pending
  | processing
  | completed
  | failed
deriving DecidableEq, Repr

/-- `NodeType` enum. -/
inductive NodeType
  | primary_leader
  | backup_leader
  | worker
deriving DecidableEq, Repr

/-- `NodeStatus` enum. -/
inductive NodeStatus
  | online
  | offline
  | starting
  | failing
  | recovering
deriving DecidableEq, Repr

/-- A task / crawl result JSON object.  The embedding keeps exactly the keys
the coordination core reads or writes (`result.get("…")` sites and the
dicts built in the workers); a key absent from the Python dict is `none`. -/
structure ResultDict where
  markdown : Option String := none
  summary : Option String := none
  url : Option String := none
  timestamp : Option String := none
  map : Option (List String) := none
  error : Option String := none
  status : Option String := none
deriving DecidableEq, Repr

/-- `SummaryTask` pydantic model. -/
structure SummaryTask where
  task_id : String
  text : String
  url : Option String := none
  title : Option String := none
  source : Option String := none
  assigned_worker : Option String := none
  status : TaskStatus := TaskStatus.pending
  created_at : Nat := 0
  updated_at : Nat := 0
  result : Option ResultDict := none
deriving DecidableEq, Repr

/-- `HeartbeatMessage` pydantic model. -/
structure HeartbeatMessage where
  node_id : String
  node_type : NodeType
  status : NodeStatus
  timestamp : Nat := 0
  leader_id : Option String := none
  tasks_count : Nat := 0
  pending_tasks : Nat := 0
  completed_tasks : Nat := 0
deriving DecidableEq, Repr

/-- Python string truthiness for an `Optional[str]`: `None` and `""` are
falsy. -/
def strTruthy : Option String → Bool
  | none => false
  | some s => s ≠ ""

/-! ## Summarizer state manager (`server-summarizer/state_manager.py`) -/

/-- `StateManager.__init__`, plus the state mutated by its methods.
`task_queue` is the `Queue` of task ids (FIFO: `put` appends, `get` pops
the head). -/
structure StateManager where
  is_leader : Bool
  tasks : List (String × SummaryTask) := []
  completed_urls : List String := []
  task_queue : List String := []
  state_version : Nat := 0
  last_sync_time : Nat := 0
deriving DecidableEq, Repr

namespace StateManager

/-- The unconditional tail of `StateManager.add_task` (store the task,
enqueue on the leader, bump the version). -/
def add_task_store (m : StateManager) (task : SummaryTask) : String × StateManager :=
  (task.task_id,
   { m with
     tasks := dinsert m.tasks task.task_id task
     task_queue := if m.is_leader then m.task_queue ++ [task.task_id] else m.task_queue
     state_version := m.state_version + 1 })

/-- `StateManager.add_task`.  If the task's URL is truthy and already in
`completed_urls`, the first stored task with that URL and status
`completed` short-circuits the insertion; otherwise the task is stored
(overwriting any entry with the same id), enqueued on the leader, and the
version is bumped.  Returns the task id chosen. -/
def add_task (m : StateManager) (task : SummaryTask) : String × StateManager :=
  if strTruthy task.url && shas m.completed_urls (task.url.getD "") then
    match m.tasks.find? (fun p =>
        p.2.url == task.url && p.2.status == TaskStatus.completed) with
    | some p => (p.1, m)
    | none => add_task_store m task
  else
    add_task_store m task

/-- `StateManager.get_next_task`. -/
def get_next_task (m : StateManager) (now : Nat) : Option SummaryTask × StateManager :=
  if !m.is_leader then (none, m)
  else
    match m.task_queue with
    | [] => (none, m)
    | task_id :: rest =>
      match dget m.tasks task_id with
      | some task =>
        let task' := { task with status := TaskStatus.processing, updated_at := now }
        (some task',
         { m with
           tasks := dinsert m.tasks task_id task'
           task_queue := rest
           state_version := m.state_version + 1 })
      | none => (none, { m with task_queue := rest })

/-- `StateManager.update_task`. -/
def update_task (m : StateManager) (task_id : String) (status : TaskStatus)
    (result : Option ResultDict) (now : Nat) : Bool × StateManager :=
  match dget m.tasks task_id with
  | none => (false, m)
  | some task =>
    let task' := { task with
      status := status
      updated_at := now
      result := if result.isSome then result else task.result }
    let urls' :=
      if status == TaskStatus.completed && strTruthy task.url then
        sinsert m.completed_urls (task.url.getD "")
      else m.completed_urls
    (true,
     { m with
       tasks := dinsert m.tasks task_id task'
       completed_urls := urls'
       state_version := m.state_version + 1 })

/-- `StateManager.assign_task`. -/
def assign_task (m : StateManager) (task_id worker_id : String) (now : Nat) :
    Bool × StateManager :=
  match dget m.tasks task_id with
  | none => (false, m)
  | some task =>
    let task' := { task with
      assigned_worker := some worker_id
      status := TaskStatus.processing
      updated_at := now }
    (true,
     { m with
       tasks := dinsert m.tasks task_id task'
       state_version := m.state_version + 1 })

/-- `StateManager.get_task`. -/
def get_task (m : StateManager) (task_id : String) : Option SummaryTask :=
  dget m.tasks task_id

/-- The dictionary returned by `StateManager.export_state`. -/
structure Exported where
  version : Nat
  timestamp : Nat
  tasks : List (String × SummaryTask)
  completed_urls : List String
deriving DecidableEq, Repr

/-- `StateManager.export_state`. -/
def export_state (m : StateManager) (now : Nat) : Exported :=
  { version := m.state_version
    timestamp := now
    tasks := m.tasks
    completed_urls := m.completed_urls }

/-- Ids of the `pending` tasks of a task table, in insertion order (the
queue-rebuild loops iterate `self.tasks.items()` in that order). -/
def pendingIds (tasks : List (String × SummaryTask)) : List String :=
  (tasks.filter (fun p => p.2.status == TaskStatus.pending)).map (fun p => p.1)

/-- `StateManager.import_state`. -/
def import_state (m : StateManager) (s : Exported) (now : Nat) : Bool × StateManager :=
  if s.version ≤ m.state_version then (false, m)
  else
    (true,
     { m with
       state_version := s.version
       tasks := s.tasks
       completed_urls := s.completed_urls
       task_queue := if m.is_leader then pendingIds s.tasks else m.task_queue
       last_sync_time := now })

/-- `StateManager.become_leader`. -/
def become_leader (m : StateManager) : StateManager :=
  if m.is_leader then m
  else { m with is_leader := true, task_queue := pendingIds m.tasks }

/-- `StateManager.become_follower`. -/
def become_follower (m : StateManager) : StateManager :=
  if m.is_leader then { m with is_leader := false } else m

end StateManager

/-! ## Heartbeat service (`server-summarizer/heartbeat.py`) -/

/-- `config.HEARTBEAT_INTERVAL` default (seconds). -/
def HEARTBEAT_INTERVAL : Nat := 5

/-- `config.HEARTBEAT_TIMEOUT` default (seconds). -/
def HEARTBEAT_TIMEOUT : Nat := 30

/-- `config.PRIMARY_LEADER["id"]`. -/
def PRIMARY_LEADER_ID : String := "leader-primary"

/-- `[b["id"] for b in config.BACKUP_LEADERS]`, in declaration order. -/
def BACKUP_LEADER_IDS : List String := ["leader-backup-1", "leader-backup-2"]

/-- The value stored per peer in `HeartbeatService.active_nodes`. -/
structure PeerInfo where
  heartbeat : HeartbeatMessage
  timestamp : Nat
  type : NodeType
  status : NodeStatus
deriving DecidableEq, Repr

/-- A `status_callback(node_id, status)` invocation. -/
structure StatusEvent where
  node_id : String
  status : NodeStatus
deriving DecidableEq, Repr

/-- The mutable state of `HeartbeatService` (summarizer fleet). -/
structure HeartbeatService where
  node_id : String
  node_type : NodeType
  active_nodes : List (String × PeerInfo) := []
  failed_nodes : List String := []
  missed_heartbeats : List (String × Nat) := []
  leader_id : String := PRIMARY_LEADER_ID
deriving DecidableEq, Repr

namespace HeartbeatService

/-- `HeartbeatService.__init__`. -/
def init (node_id : String) (node_type : NodeType) : HeartbeatService :=
  { node_id := node_id, node_type := node_type }

/-- `HeartbeatService.max_missed_heartbeats` (set to 3 in `__init__`). -/
def max_missed_heartbeats : Nat := 3

/-- `HeartbeatService.receive_heartbeat`.  Returns the new state and the
`status_callback` invocations it fired. -/
def receive_heartbeat (s : HeartbeatService) (hb : HeartbeatMessage) (now : Nat) :
    HeartbeatService × List StatusEvent :=
  let info : PeerInfo :=
    { heartbeat := hb, timestamp := now, type := hb.node_type, status := hb.status }
  let active' := dinsert s.active_nodes hb.node_id info
  let missed' :=
    if dhas s.missed_heartbeats hb.node_id then
      dinsert s.missed_heartbeats hb.node_id 0
    else s.missed_heartbeats
  let failed' :=
    if shas s.failed_nodes hb.node_id then sremove s.failed_nodes hb.node_id
    else s.failed_nodes
  let events : List StatusEvent :=
    if shas s.failed_nodes hb.node_id then
      [{ node_id := hb.node_id, status := hb.status }]
    else []
  let leader' :=
    if (hb.node_type == NodeType.primary_leader || hb.node_type == NodeType.backup_leader)
        && strTruthy hb.leader_id && (hb.leader_id.getD "") ≠ s.leader_id then
      hb.leader_id.getD ""
    else s.leader_id
  ({ s with
     active_nodes := active'
     missed_heartbeats := missed'
     failed_nodes := failed'
     leader_id := leader' },
   events)

/-- One iteration of the `for node_id in list(self.active_nodes.keys())`
loop body of `HeartbeatService._check_for_failures`. -/
def check_one (now : Nat) (acc : HeartbeatService × List StatusEvent) (node_id : String) :
    HeartbeatService × List StatusEvent :=
  let (s, events) := acc
  match dget s.active_nodes node_id with
  | none => (s, events)
  | some info =>
    if info.timestamp + HEARTBEAT_TIMEOUT < now then
      let mb := (dget s.missed_heartbeats node_id).getD 0 + 1
      if max_missed_heartbeats ≤ mb then
        ({ s with
           active_nodes := dremove s.active_nodes node_id
           failed_nodes := sinsert s.failed_nodes node_id
           missed_heartbeats := dremove s.missed_heartbeats node_id },
         events ++ [{ node_id := node_id, status := NodeStatus.offline }])
      else
        ({ s with missed_heartbeats := dinsert s.missed_heartbeats node_id mb }, events)
    else
      match dget s.missed_heartbeats node_id with
      | some k =>
        if 0 < k then
          ({ s with missed_heartbeats := dinsert s.missed_heartbeats node_id 0 }, events)
        else (s, events)
      | none => (s, events)

/-- `HeartbeatService._check_for_failures`: iterate the loop body over the
snapshot of the active keys taken at entry.  In Python a `current_time -
last_heartbeat > HEARTBEAT_TIMEOUT` comparison over reals is modelled as
`last_heartbeat + HEARTBEAT_TIMEOUT < current_time`. -/
def check_for_failures (s : HeartbeatService) (now : Nat) :
    HeartbeatService × List StatusEvent :=
  (dkeys s.active_nodes).foldl (check_one now) (s, [])

/-- `HeartbeatService.set_leader`. -/
def set_leader (s : HeartbeatService) (leader_id : String) : HeartbeatService :=
  { s with leader_id := leader_id }

/-- `HeartbeatService.is_node_active` (summarizer fleet). -/
def is_node_active (s : HeartbeatService) (node_id : String) : Bool :=
  dhas s.active_nodes node_id && !(shas s.failed_nodes node_id)

end HeartbeatService

/-- States of a heartbeat service reachable from `__init__` by any
interleaving of received heartbeats and liveness checks. -/
inductive HBReachable : HeartbeatService → Prop
  | init (node_id : String) (node_type : NodeType) :
      HBReachable (HeartbeatService.init node_id node_type)
  | recv (s : HeartbeatService) (hb : HeartbeatMessage) (now : Nat) :
      HBReachable s → HBReachable (s.receive_heartbeat hb now).1
  | check (s : HeartbeatService) (now : Nat) :
      HBReachable s → HBReachable (s.check_for_failures now).1

/-- No peer is simultaneously tracked as active and as failed. -/
def HBDisjoint (s : HeartbeatService) : Prop :=
  ∀ p, p ∈ dkeys s.active_nodes → p ∉ s.failed_nodes

/-! ## Crawler fleet models (`server-crawler/shared_models.py`)

`generate_task_id()` returns a fresh `uuid4` string; the embedding models
the ids as naturals drawn from a counter, which captures exactly the
freshness the code relies on. -/

/-- `CrawlTask` pydantic model (task ids modelled as naturals). -/
structure CrawlTask where
  task_id : Nat
  url : String
  max_depth : Nat := 2
  timeout : Nat := 30
  formats : List String := ["markdown", "html"]
  assigned_worker : Option String := none
  status : TaskStatus := TaskStatus.pending
  created_at : Nat := 0
  updated_at : Nat := 0
  result : Option ResultDict := none
deriving DecidableEq, Repr

/-- `CrawlResponse` pydantic model. -/
structure CrawlResponse where
  markdown : String
  summary : Option String
  url : String
  timestamp : String
  map : List String
deriving DecidableEq, Repr

/-! ## `/crawl` response assembly (`server-crawler/crawler_leader.py`)

`crawl_urls` creates one task per requested URL (each with a fresh id),
dispatches them, awaits `wait_for_tasks`, and assembles one
`CrawlResponse` per task in creation order.  The embedding takes the
leader's task-table snapshot at response time as an argument and models
the id generation by consecutive naturals starting at `startId`. -/

/-- The task ids created by the `for url in request.urls` loop, in order. -/
def crawlTaskIds (startId : Nat) (urls : List String) : List Nat :=
  List.range' startId urls.length

/-- What `wait_for_tasks` has recorded for one task id when it returns:
either the `{"status": "not_found"}` marker, a terminal task's status and
result, or nothing (non-terminal task at the 60-second deadline). -/
inductive WaitInfo
  | not_found
  | done (status : TaskStatus) (result : Option ResultDict)
  | waiting
deriving DecidableEq, Repr

/-- The `results[task_id]` entry computed by one `wait_for_tasks` loop
iteration from a task-table snapshot. -/
def waitInfoFor (snap : List (Nat × CrawlTask)) (tid : Nat) : WaitInfo :=
  match dget snap tid with
  | none => WaitInfo.not_found
  | some t =>
    if t.status == TaskStatus.completed || t.status == TaskStatus.failed then
      WaitInfo.done t.status t.result
    else WaitInfo.waiting

/-- One `CrawlResponse` entry of the `for tid in task_ids` assembly loop:
`result = results.get(tid, {}).get("result", {}) or {}`, then each field by
`result.get(key, default)` with `url` defaulting to
`request.urls[task_ids.index(tid)]` and `timestamp` to the current time
string.  (`task_ids.index` is total at these call sites; out-of-range
lookups are given don't-care defaults.) -/
def crawlEntry (urls : List String) (task_ids : List Nat)
    (snap : List (Nat × CrawlTask)) (nowStr : String) (tid : Nat) : CrawlResponse :=
  let r : ResultDict :=
    match waitInfoFor snap tid with
    | WaitInfo.done _ (some r) => r
    | _ => {}
  { markdown := r.markdown.getD ""
    summary := r.summary
    url := r.url.getD (urls.getD (task_ids.findIdx (fun x => x == tid)) "")
    timestamp := r.timestamp.getD nowStr
    map := r.map.getD [] }

/-- The `results` list of the `/crawl` response. -/
def crawl_urls (urls : List String) (startId : Nat)
    (snap : List (Nat × CrawlTask)) (nowStr : String) : List CrawlResponse :=
  (crawlTaskIds startId urls).map (crawlEntry urls (crawlTaskIds startId urls) snap nowStr)

/-- The all-default response entry: empty markdown, no summary, URL `u`,
time string `ts`, empty map. -/
def emptyCrawlResponse (u ts : String) : CrawlResponse :=
  { markdown := ""
    summary := none
    url := u
    timestamp := ts
    map := [] }

/-- True when a result object carries none of the fields `markdown`,
`url`, `map` — the shape stored for failures (`{"error": …}`) or an
absent result. -/
def resultFieldsMissing : Option ResultDict → Bool
  | none => true
  | some r => r.markdown == none && r.url == none && r.map == none

/-! ## Worker result / failure notification
(`server-summarizer/summarizer_worker.py`, `server-crawler/crawler_worker.py`)

`process_task` executes the engine and then notifies the current leader:
`send_result_to_leader` on success, `notify_task_failure` on any
exception.  The embedding records the HTTP POST each notification issues —
the path under `http://current_leader_host:current_leader_port` and the
JSON body. -/

/-- Outcome of executing a task's engine call. -/
inductive ExecOutcome
  | ok (result : ResultDict)
  | err (message : String)
deriving DecidableEq, Repr

/-- The JSON body of a worker → leader notification POST. -/
inductive WorkerPostBody
  | completed (task_id : String) (result : ResultDict)
  | failed (task_id : String) (error : String)
deriving DecidableEq, Repr

/-- `SummarizerWorkerNode.send_result_to_leader`: POST
`/worker/task_completed` with `{"task_id": …, "result": …}`. -/
def summarizerSendResult (task_id : String) (result : ResultDict) :
    String × WorkerPostBody :=
  ("/worker/task_completed", WorkerPostBody.completed task_id result)

/-- `SummarizerWorkerNode.notify_task_failure`: POST
`/worker/task_completed` with
`{"task_id": …, "result": {"error": …, "status": "failed"}}`. -/
def summarizerNotifyFailure (task_id : String) (error_message : String) :
    String × WorkerPostBody :=
  ("/worker/task_completed",
   WorkerPostBody.completed task_id
     { error := some error_message, status := some "failed" })

/-- `CrawlerWorkerNode.send_result_to_leader`: POST
`/worker/task_completed` with `{"task_id": …, "result": …}`. -/
def crawlerSendResult (task_id : String) (result : ResultDict) :
    String × WorkerPostBody :=
  ("/worker/task_completed", WorkerPostBody.completed task_id result)

/-- `CrawlerWorkerNode.notify_task_failure`: POST `/worker/task_failed`
with `{"task_id": …, "error": …}`. -/
def crawlerNotifyFailure (task_id : String) (error_message : String) :
    String × WorkerPostBody :=
  ("/worker/task_failed", WorkerPostBody.failed task_id error_message)

/-- The leader notification `SummarizerWorkerNode.process_task` issues for
a given engine outcome. -/
def summarizerWorkerPost (task_id : String) : ExecOutcome → String × WorkerPostBody
  | ExecOutcome.ok result => summarizerSendResult task_id result
  | ExecOutcome.err msg => summarizerNotifyFailure task_id msg

/-- The leader notification `CrawlerWorkerNode.process_task` issues for a
given engine outcome. -/
def crawlerWorkerPost (task_id : String) : ExecOutcome → String × WorkerPostBody
  | ExecOutcome.ok result => crawlerSendResult task_id result
  | ExecOutcome.err msg => crawlerNotifyFailure task_id msg

/-! ## Leader selection (`server-summarizer/summarizer_leader.py`) -/

/-- The fields of `SummarizerLeader` that `_select_new_leader` and
`become_leader` read or write. -/
structure SummarizerLeader where
  node_id : String
  is_primary : Bool
  is_active_leader : Bool
  state : StateManager
  heartbeat : HeartbeatService
  current_leader_id : Option String
  primary_leader_failed : Bool
  leader_selection_in_progress : Bool
deriving DecidableEq, Repr

namespace SummarizerLeader

/-- `SummarizerLeader.become_leader` (thread starts and stops are not
state of the model). -/
def become_leader (n : SummarizerLeader) : SummarizerLeader :=
  if n.is_active_leader then n
  else
    { n with
      is_active_leader := true
      current_leader_id := some n.node_id
      state := n.state.become_leader
      heartbeat := n.heartbeat.set_leader n.node_id }

/-- `SummarizerLeader._select_new_leader`, run when the one-shot selection
timer fires.  Returns the new node state and whether the node became (and
announced itself) leader.  `_announce_leadership` only performs network
sends. -/
def select_new_leader (n : SummarizerLeader) : SummarizerLeader × Bool :=
  if !n.primary_leader_failed || n.is_active_leader then
    ({ n with leader_selection_in_progress := false }, false)
  else if n.heartbeat.is_node_active PRIMARY_LEADER_ID then
    ({ n with
       primary_leader_failed := false
       leader_selection_in_progress := false }, false)
  else
    let active_backups := BACKUP_LEADER_IDS.filter (fun lid =>
      lid ≠ n.node_id && n.heartbeat.is_node_active lid)
    let should_become_leader :=
      if active_backups.isEmpty then true
      else if n.node_id = BACKUP_LEADER_IDS.getD 0 "" then true
      else !n.heartbeat.is_node_active (BACKUP_LEADER_IDS.getD 0 "")
    if should_become_leader then
      ({ n.become_leader with leader_selection_in_progress := false }, true)
    else
      ({ n with leader_selection_in_progress := false }, false)

end SummarizerLeader

/-! ## Concrete fixture states used by witnesses and counterexamples -/

/-- A fresh active-leader state manager. -/
def exLeaderSM : StateManager := { is_leader := true }

/-- A fresh task with a URL. -/
def exTaskU : SummaryTask := { task_id := "t1", text := "x", url := some "u" }

/-- A fresh task without a URL. -/
def exTask : SummaryTask := { task_id := "t1", text := "x" }

/-- The leader after adding `exTaskU` once. -/
def exSMdup1 : StateManager := (exLeaderSM.add_task exTaskU).2

/-- The leader after adding `exTaskU` twice. -/
def exSMdup2 : StateManager := (exSMdup1.add_task exTaskU).2

/-- The leader after adding `exTask` once. -/
def exSMnext : StateManager := (exLeaderSM.add_task exTask).2

/-- A leader holding the pending task `exTask`, its id queued. -/
def exSMassign : StateManager :=
  { is_leader := true
    tasks := [("t1", exTask)]
    task_queue := ["t1"]
    state_version := 1 }

/-- A completed task for URL `"u"`. -/
def exTaskDone : SummaryTask :=
  { task_id := "t0"
    text := "y"
    url := some "u"
    status := TaskStatus.completed }

/-- A leader that already completed URL `"u"` via `exTaskDone`. -/
def exSMdone : StateManager :=
  { is_leader := true
    tasks := [("t0", exTaskDone)]
    completed_urls := ["u"] }

/-- An exported state at version 1 holding one pending task. -/
def exExported : StateManager.Exported :=
  { version := 1
    timestamp := 0
    tasks := [("t1", exTask)]
    completed_urls := ["u"] }

/-- An exported state at version 0 (not newer than any manager). -/
def exExported0 : StateManager.Exported :=
  { version := 0
    timestamp := 0
    tasks := [("t1", exTask)]
    completed_urls := ["u"] }

/-- A heartbeat state in which the primary is silent but backup-1 is
fresh. -/
def exHBonlyB1 : HeartbeatService :=
  { node_id := "leader-backup-2"
    node_type := NodeType.backup_leader
    active_nodes :=
      [("leader-backup-1",
        { heartbeat :=
            { node_id := "leader-backup-1"
              node_type := NodeType.backup_leader
              status := NodeStatus.online }
          timestamp := 100
          type := NodeType.backup_leader
          status := NodeStatus.online })]
    failed_nodes := ["leader-primary"] }

/-- A failed crawl task for `https://x` whose result is the error
object. -/
def exCrawlFailed : CrawlTask :=
  { task_id := 0
    url := "https://x"
    status := TaskStatus.failed
    result := some { error := some "boom" } }

/-- A still-processing crawl task for `https://y`. -/
def exCrawlRunning : CrawlTask :=
  { task_id := 1
    url := "https://y"
    status := TaskStatus.processing }

/-- A crawler task-table snapshot at response time. -/
def exSnapC6 : List (Nat × CrawlTask) :=
  [(0, exCrawlFailed), (1, exCrawlRunning)]

/-- The URLs of the `/crawl` request matching `exSnapC6`. -/
def exUrlsC6 : List String := ["https://x", "https://y"]

/-- A heartbeat message from `worker-1`. -/
def exPeerMsg : HeartbeatMessage :=
  { node_id := "worker-1"
    node_type := NodeType.worker
    status := NodeStatus.online }

/-- The `active_nodes` entry recorded for `exPeerMsg` at time 0. -/
def exPeerInfo : PeerInfo :=
  { heartbeat := exPeerMsg
    timestamp := 0
    type := NodeType.worker
    status := NodeStatus.online }

/-- A fresh primary-leader heartbeat service. -/
def exHB0 : HeartbeatService :=
  HeartbeatService.init "leader-primary" NodeType.primary_leader

/-- `exHB0` after hearing `worker-1` at time 0. -/
def exHB1 : HeartbeatService := (exHB0.receive_heartbeat exPeerMsg 0).1

/-- `exHB1` after liveness checks at times 31 and 36. -/
def exHB3 : HeartbeatService :=
  (((exHB1.check_for_failures 31).1).check_for_failures 36).1

/-- `exHB3`'s liveness check at time 41 (the third missed check). -/
def exHB4 : HeartbeatService × List StatusEvent := exHB3.check_for_failures 41

/-- Backup-2 with the primary believed failed and backup-1 alive. -/
def exBackup2 : SummarizerLeader :=
  { node_id := "leader-backup-2"
    is_primary := false
    is_active_leader := false
    state := { is_leader := false }
    heartbeat := exHBonlyB1
    current_leader_id := some PRIMARY_LEADER_ID
    primary_leader_failed := true
    leader_selection_in_progress := true }

/-! ## Association-list lemmas -/

section DictLemmas

variable {κ α : Type} [DecidableEq κ]

theorem dget_dinsert_self (d : List (κ × α)) (k : κ) (v : α) :
    dget (dinsert d k v) k = some v := by
  induction d with
  | nil => simp [dinsert, dget]
  | cons hd tl ih =>
    by_cases h : hd.1 = k
    · simp [dinsert, dget, h]
    · simp only [dinsert, if_neg h]
      simpa [dget, h] using ih

theorem dget_dinsert_ne (d : List (κ × α)) (k p : κ) (v : α) (hne : p ≠ k) :
    dget (dinsert d k v) p = dget d p := by
  have hkp : ¬ k = p := fun h => hne h.symm
  induction d with
  | nil => simp [dinsert, dget, hkp]
  | cons hd tl ih =>
    by_cases h : hd.1 = k
    · have h1 : ¬ hd.1 = p := by rw [h]; exact hkp
      simp [dinsert, dget, h, h1, hkp]
    · simp only [dinsert, if_neg h, dget]
      by_cases h2 : hd.1 = p
      · simp [h2]
      · simp [h2, ih]

theorem mem_dkeys_dinsert (d : List (κ × α)) (k p : κ) (v : α) :
    p ∈ dkeys (dinsert d k v) ↔ p = k ∨ p ∈ dkeys d := by
  induction d with
  | nil => simp [dinsert, dkeys]
  | cons hd tl ih =>
    by_cases h : hd.1 = k
    · simp only [dinsert, if_pos h, dkeys, List.map_cons, List.mem_cons]
      rw [h]
      tauto
    · simp only [dinsert, if_neg h, dkeys, List.map_cons, List.mem_cons]
      simp only [dkeys] at ih
      rw [ih]
      tauto

theorem mem_dkeys_dremove (d : List (κ × α)) (k p : κ) :
    p ∈ dkeys (dremove d k) ↔ p ≠ k ∧ p ∈ dkeys d := by
  simp only [dremove, dkeys, List.mem_map, List.mem_filter]
  constructor
  · rintro ⟨q, ⟨hq, hqk⟩, rfl⟩
    exact ⟨by simpa using hqk, ⟨q, hq, rfl⟩⟩
  · rintro ⟨hne, q, hq, rfl⟩
    exact ⟨q, ⟨hq, by simpa using hne⟩, rfl⟩

theorem mem_sinsert (s : List κ) (x p : κ) :
    p ∈ sinsert s x ↔ p = x ∨ p ∈ s := by
  unfold sinsert
  by_cases h : x ∈ s
  · simp only [h, if_true]
    constructor
    · exact Or.inr
    · rintro (hp | hp)
      · exact hp ▸ h
      · exact hp
  · simp only [h, if_false, List.mem_append, List.mem_singleton]
    tauto

theorem mem_sremove (s : List κ) (x p : κ) :
    p ∈ sremove s x ↔ p ∈ s ∧ p ≠ x := by
  simp [sremove, List.mem_filter]

end DictLemmas

/-! ## Claim C1: worker failure / success notification endpoints -/

/-- C1, counterexample: the claim says every worker POSTs execution
failures to the leader's `/worker/task_failed` endpoint, but
`SummarizerWorkerNode.notify_task_failure` POSTs them to
`/worker/task_completed` (with an error result object). -/
theorem summarizer_failure_posts_completed_endpoint :
    (summarizerWorkerPost "t" (ExecOutcome.err "boom")).1 = "/worker/task_completed" ∧
    (summarizerWorkerPost "t" (ExecOutcome.err "boom")).1 ≠ "/worker/task_failed" := by
  refine ⟨rfl, ?_⟩
  decide

/-- C1, amended: on success both workers POST the result to the current
leader's `/worker/task_completed`; on any exception the crawler worker
POSTs the error string to `/worker/task_failed`, while the summarizer
worker POSTs `/worker/task_completed` with the result object
`{"error": message, "status": "failed"}`. -/
theorem worker_notification_endpoints (task_id error_message : String)
    (result : ResultDict) :
    summarizerWorkerPost task_id (ExecOutcome.ok result)
      = ("/worker/task_completed", WorkerPostBody.completed task_id result) ∧
    crawlerWorkerPost task_id (ExecOutcome.ok result)
      = ("/worker/task_completed", WorkerPostBody.completed task_id result) ∧
    crawlerWorkerPost task_id (ExecOutcome.err error_message)
      = ("/worker/task_failed", WorkerPostBody.failed task_id error_message) ∧
    summarizerWorkerPost task_id (ExecOutcome.err error_message)
      = ("/worker/task_completed",
         WorkerPostBody.completed task_id
           { error := some error_message, status := some "failed" }) :=
  ⟨rfl, rfl, rfl, rfl⟩

/-! ## Claim C8: export / import round trip -/

/-- C8: importing a state manager's own export leaves the task table and
the completed-URL set equal to what the export captured (the import is
rejected as not newer, so nothing changes). -/
theorem export_import_round_trip (m : StateManager) (now now2 : Nat) :
    ((m.import_state (m.export_state now) now2).2).tasks = (m.export_state now).tasks ∧
    ((m.import_state (m.export_state now) now2).2).completed_urls
      = (m.export_state now).completed_urls := by
  constructor <;> simp [StateManager.import_state, StateManager.export_state]

/-! ## Claim C9: unknown task id leaves the state manager unchanged -/

/-- C9: for a task id not in the task table, `update_task` and
`assign_task` return `False` and leave the whole state manager (task
table, completed-URL set, dispatch queue, version) unchanged. -/
theorem missing_task_update_assign_noop (m : StateManager)
    (task_id worker_id : String) (status : TaskStatus)
    (result : Option ResultDict) (now : Nat)
    (h : dget m.tasks task_id = none) :
    m.update_task task_id status result now = (false, m) ∧
    m.assign_task task_id worker_id now = (false, m) := by
  constructor
  · simp [StateManager.update_task, h]
  · simp [StateManager.assign_task, h]

/-- C9 witness. -/
theorem missing_task_update_assign_noop_witness :
    ({ is_leader := true } : StateManager).update_task "x" TaskStatus.completed none 3
        = (false, { is_leader := true }) ∧
    ({ is_leader := true } : StateManager).assign_task "x" "worker-1" 3
        = (false, { is_leader := true }) :=
  missing_task_update_assign_noop { is_leader := true } "x" "worker-1"
    TaskStatus.completed none 3 rfl

/-! ## Claim C5: duplicate `add_task` with an existing task id -/

/-- C5, counterexample: re-adding a task whose id is already in the table
is not a no-op — the version counter is bumped again and the id is
enqueued a second time. -/
theorem duplicate_add_task_not_noop :
    exSMdup1.state_version = 1 ∧ exSMdup1.task_queue = ["t1"] ∧
    exSMdup2.state_version = 2 ∧ exSMdup2.task_queue = ["t1", "t1"] := by
  refine ⟨?_, ?_, ?_, ?_⟩ <;> decide

/-- C5, amended: unless the completed-URL short-circuit applies,
`add_task` always stores the task (overwriting any entry with the same
id), enqueues its id on the leader, and increments the version — so a
duplicate insertion with an existing id is not a no-op; when the task's
URL is truthy, already in the completed-URL set, and some stored task with
that URL is `completed`, the call instead returns the first such task's id
and leaves the state unchanged. -/
theorem add_task_overwrite_or_short_circuit (m : StateManager) (t : SummaryTask) :
    ((strTruthy t.url && shas m.completed_urls (t.url.getD "")) = false →
      m.add_task t =
        (t.task_id,
         { m with
           tasks := dinsert m.tasks t.task_id t
           task_queue := if m.is_leader then m.task_queue ++ [t.task_id] else m.task_queue
           state_version := m.state_version + 1 })) ∧
    (∀ p, (strTruthy t.url && shas m.completed_urls (t.url.getD "")) = true →
      m.tasks.find? (fun q => q.2.url == t.url && q.2.status == TaskStatus.completed)
        = some p →
      m.add_task t = (p.1, m)) := by
  constructor
  · intro h
    simp [StateManager.add_task, h, StateManager.add_task_store]
  · intro p h hf
    simp [StateManager.add_task, h, hf]

/-- C5 witness (both branches at concrete inputs). -/
theorem add_task_overwrite_or_short_circuit_witness :
    exLeaderSM.add_task exTask = ("t1", exSMassign) ∧
    exSMdone.add_task exTaskU = ("t0", exSMdone) := by
  constructor
  · have h := (add_task_overwrite_or_short_circuit exLeaderSM exTask).1 (by decide)
    rw [h]
    decide
  · have h := (add_task_overwrite_or_short_circuit exSMdone exTaskU).2
      ("t0", exTaskDone) (by decide) (by decide)
    simpa using h

/-! ## Claim C4: `assigned_worker` non-null iff status `processing` -/

/-- C4, counterexample: `get_next_task` sets the dequeued task's status to
`processing` without assigning a worker, so a reachable leader state holds
a `processing` task with `assigned_worker = None` — refuting the claimed
biconditional. -/
theorem get_next_task_processing_null_worker :
    ((exSMnext.get_next_task 5).1.map (fun t => (t.status, t.assigned_worker)))
      = some (TaskStatus.processing, none) ∧
    ((dget (exSMnext.get_next_task 5).2.tasks "t1").map
      (fun t => (t.status, t.assigned_worker)))
      = some (TaskStatus.processing, none) := by
  constructor <;> decide

/-- C4, amended: a successful `assign_task` leaves its target task with
status `processing` and the given (non-null) worker, but `get_next_task`
sets status `processing` while leaving `assigned_worker` unchanged (null
for a freshly created task), so `status = processing` does not imply a
non-null `assigned_worker`. -/
theorem assign_task_establishes_worker (m : StateManager)
    (task_id worker_id : String) (now : Nat) :
    ((m.assign_task task_id worker_id now).1 = true →
      ((dget ((m.assign_task task_id worker_id now).2).tasks task_id).map
        (fun t => (t.status, t.assigned_worker)))
        = some (TaskStatus.processing, some worker_id)) ∧
    (∀ t rest, m.is_leader = true → m.task_queue = task_id :: rest →
      dget m.tasks task_id = some t →
      (((m.get_next_task now).1).map (fun t' => (t'.status, t'.assigned_worker)))
        = some (TaskStatus.processing, t.assigned_worker)) := by
  constructor
  · intro h
    match hg : dget m.tasks task_id with
    | none => simp [StateManager.assign_task, hg] at h
    | some task =>
      simp [StateManager.assign_task, hg, dget_dinsert_self]
  · intro t rest hl hq hg
    simp [StateManager.get_next_task, hl, hq, hg]

/-! ## Claim C2: heartbeat hysteresis timing -/

/-- C2, counterexample: with the defaults (`HEARTBEAT_TIMEOUT = 30`,
`max_missed_heartbeats = 3`) and liveness checks at times 31, 36, 41, a
peer last heard at time 0 is moved to the failed set — with the OFFLINE
callback — at time 41, i.e. after only 41 seconds of silence, strictly
less than `HEARTBEAT_TIMEOUT × (MAX_MISSED_BEATS − 1) = 60`; in
particular when it has been silent for exactly 60 seconds it is already
in the failed set, refuting the claim. -/
theorem heartbeat_failed_before_two_timeouts :
    exHB4.1.failed_nodes = ["worker-1"] ∧
    exHB4.2 = [{ node_id := "worker-1", status := NodeStatus.offline }] ∧
    41 < HEARTBEAT_TIMEOUT * (HeartbeatService.max_missed_heartbeats - 1) ∧
    "worker-1" ∈ ((exHB4.1.check_for_failures 60).1).failed_nodes := by
  refine ⟨?_, ?_, ?_, ?_⟩ <;> decide

/-- C2, amended: what decides failure is the number of liveness checks
that observe silence longer than `HEARTBEAT_TIMEOUT`, not the silence
duration itself.  For a service tracking one silent peer whose missed-beat
counter is `k`: a check finding `now − last > HEARTBEAT_TIMEOUT` raises
the counter to `k+1`, and only when `k+1` reaches
`max_missed_heartbeats` (= 3) is the peer moved to the failed set, removed
from the active map, and the OFFLINE callback fired. -/
theorem heartbeat_third_missed_check_fails_peer
    (me peer : String) (ty : NodeType) (info : PeerInfo) (k now : Nat)
    (htime : info.timestamp + HEARTBEAT_TIMEOUT < now) :
    (k + 1 < HeartbeatService.max_missed_heartbeats →
      HeartbeatService.check_for_failures
        { node_id := me
          node_type := ty
          active_nodes := [(peer, info)]
          failed_nodes := []
          missed_heartbeats := [(peer, k)] } now
        = ({ node_id := me
             node_type := ty
             active_nodes := [(peer, info)]
             failed_nodes := []
             missed_heartbeats := [(peer, k + 1)] }, [])) ∧
    (HeartbeatService.max_missed_heartbeats ≤ k + 1 →
      HeartbeatService.check_for_failures
        { node_id := me
          node_type := ty
          active_nodes := [(peer, info)]
          failed_nodes := []
          missed_heartbeats := [(peer, k)] } now
        = ({ node_id := me
             node_type := ty
             active_nodes := []
             failed_nodes := [peer]
             missed_heartbeats := [] },
           [{ node_id := peer, status := NodeStatus.offline }])) := by
  constructor
  · intro hk
    have hk' : ¬ HeartbeatService.max_missed_heartbeats ≤ k + 1 :=
      Nat.not_le.mpr hk
    simp [HeartbeatService.check_for_failures, dkeys, HeartbeatService.check_one,
      dget, dinsert, dremove, sinsert, htime, hk']
  · intro hk
    simp [HeartbeatService.check_for_failures, dkeys, HeartbeatService.check_one,
      dget, dinsert, dremove, sinsert, htime, hk]

/-- C2 witness: both branches at concrete inputs (counter 0 → just counts;
counter 2 → third miss fails the peer at 31 seconds of silence). -/
theorem heartbeat_third_missed_check_fails_peer_witness :
    HeartbeatService.check_for_failures
      { node_id := "a"
        node_type := NodeType.worker
        active_nodes := [("p", exPeerInfo)]
        failed_nodes := []
        missed_heartbeats := [("p", 0)] } 31
      = ({ node_id := "a"
           node_type := NodeType.worker
           active_nodes := [("p", exPeerInfo)]
           failed_nodes := []
           missed_heartbeats := [("p", 1)] }, []) ∧
    HeartbeatService.check_for_failures
      { node_id := "a"
        node_type := NodeType.worker
        active_nodes := [("p", exPeerInfo)]
        failed_nodes := []
        missed_heartbeats := [("p", 2)] } 31
      = ({ node_id := "a"
           node_type := NodeType.worker
           active_nodes := []
           failed_nodes := ["p"]
           missed_heartbeats := [] },
         [{ node_id := "p", status := NodeStatus.offline }]) := by
  constructor
  · exact (heartbeat_third_missed_check_fails_peer "a" "p" NodeType.worker
      exPeerInfo 0 31 (by decide)).1 (by decide)
  · exact (heartbeat_third_missed_check_fails_peer "a" "p" NodeType.worker
      exPeerInfo 2 31 (by decide)).2 (by decide)

/-! ## Claim C3: `import_state` version gate and replacement -/

/-- Membership in the rebuilt dispatch queue: exactly the ids of the
`pending` tasks. -/
theorem mem_pendingIds (tasks : List (String × SummaryTask)) (id : String) :
    id ∈ StateManager.pendingIds tasks ↔
      ∃ t, (id, t) ∈ tasks ∧ t.status = TaskStatus.pending := by
  simp only [StateManager.pendingIds, List.mem_map, List.mem_filter]
  constructor
  · rintro ⟨p, ⟨hp, hs⟩, rfl⟩
    exact ⟨p.2, by simpa using hp, by simpa using hs⟩
  · rintro ⟨t, hm, hs⟩
    exact ⟨(id, t), ⟨hm, by simp [hs]⟩, rfl⟩

/-- C3: `import_state s` rejects (returns `False`, state untouched) when
`s.version ≤ local version`; otherwise it returns `True`, replaces the
task table and completed-URL set, adopts `s.version`, and on a leader the
dispatch queue afterwards holds exactly the ids of the `pending` imported
tasks (a follower's queue is untouched). -/
theorem import_state_spec (m : StateManager) (s : StateManager.Exported) (now : Nat) :
    (s.version ≤ m.state_version → m.import_state s now = (false, m)) ∧
    (m.state_version < s.version →
      (m.import_state s now).1 = true ∧
      ((m.import_state s now).2).tasks = s.tasks ∧
      ((m.import_state s now).2).completed_urls = s.completed_urls ∧
      ((m.import_state s now).2).state_version = s.version ∧
      (m.is_leader = true →
        ∀ id, id ∈ ((m.import_state s now).2).task_queue ↔
          ∃ t, (id, t) ∈ s.tasks ∧ t.status = TaskStatus.pending) ∧
      (m.is_leader = false →
        ((m.import_state s now).2).task_queue = m.task_queue)) := by
  constructor
  · intro h
    simp [StateManager.import_state, h]
  · intro h
    have h' : ¬ s.version ≤ m.state_version := Nat.not_le.mpr h
    refine ⟨?_, ?_, ?_, ?_, ?_, ?_⟩
    · simp [StateManager.import_state, h']
    · simp [StateManager.import_state, h']
    · simp [StateManager.import_state, h']
    · simp [StateManager.import_state, h']
    · intro hl id
      simp [StateManager.import_state, h', hl, mem_pendingIds]
    · intro hl
      simp [StateManager.import_state, h', hl]

/-- C3 witness: one concrete rejected import and one concrete
accepted import whose rebuilt queue holds the pending task id. -/
theorem import_state_spec_witness :
    exLeaderSM.import_state exExported0 9 = (false, exLeaderSM) ∧
    (exLeaderSM.import_state exExported 9).1 = true ∧
    "t1" ∈ ((exLeaderSM.import_state exExported 9).2).task_queue := by
  have hrej := (import_state_spec exLeaderSM exExported0 9).1 (by decide)
  have h := (import_state_spec exLeaderSM exExported 9).2 (by decide)
  exact ⟨hrej, h.1, (h.2.2.2.2.1 rfl "t1").mpr ⟨exTask, by decide, rfl⟩⟩

/-! ## Claim C6: `/crawl` response shape -/

/-- Indexing a mapped `range'`. -/
theorem getD_map_range' {β : Type} (f : Nat → β) (s n i : Nat) (d : β)
    (hi : i < n) :
    ((List.range' s n).map f).getD i d = f (s + i) := by
  induction n generalizing s i with
  | zero => exact absurd hi (Nat.not_lt_zero i)
  | succ n ih =>
    rw [List.range'_succ]
    cases i with
    | zero => simp
    | succ j =>
      simp only [List.map_cons, List.getD_cons_succ]
      rw [ih (s + 1) j (Nat.lt_of_succ_lt_succ hi)]
      congr 1
      omega

/-- `task_ids.index(tid)` over the consecutive generated ids. -/
theorem findIdx_range' (s n i : Nat) (hi : i < n) :
    (List.range' s n).findIdx (fun x => x == s + i) = i := by
  induction n generalizing s i with
  | zero => exact absurd hi (Nat.not_lt_zero i)
  | succ n ih =>
    rw [List.range'_succ, List.findIdx_cons]
    cases i with
    | zero => simp
    | succ j =>
      have hs : (s == s + (j + 1)) = false := by
        simp only [beq_eq_false_iff_ne, ne_eq]
        omega
      simp only [hs, cond_false]
      rw [show s + (j + 1) = (s + 1) + j by omega]
      rw [ih (s + 1) j (Nat.lt_of_succ_lt_succ hi)]

/-- The `i`-th `/crawl` response entry is built for the `i`-th task id. -/
theorem crawl_urls_getD (urls : List String) (startId : Nat)
    (snap : List (Nat × CrawlTask)) (nowStr : String) (i : Nat)
    (hi : i < urls.length) :
    (crawl_urls urls startId snap nowStr).getD i (emptyCrawlResponse "" "")
      = crawlEntry urls (crawlTaskIds startId urls) snap nowStr (startId + i) := by
  unfold crawl_urls crawlTaskIds
  exact getD_map_range' _ startId urls.length i _ hi

/-- C6: the `/crawl` response has exactly one entry per requested URL in
request order; the entry for a task that is unfinished (or untracked) at
response time is the all-default entry carrying the requested URL, and the
entry for a `failed` task whose result object has no `markdown`, `url` or
`map` fields gets `""`, the requested URL, and `[]` for them. -/
theorem crawl_response_per_url (urls : List String) (startId : Nat)
    (snap : List (Nat × CrawlTask)) (nowStr : String) (_hne : urls ≠ []) :
    (crawl_urls urls startId snap nowStr).length = urls.length ∧
    (∀ i, i < urls.length → dget snap (startId + i) = none →
      (crawl_urls urls startId snap nowStr).getD i (emptyCrawlResponse "" "")
        = emptyCrawlResponse (urls.getD i "") nowStr) ∧
    (∀ i t, i < urls.length → dget snap (startId + i) = some t →
      t.status ≠ TaskStatus.completed → t.status ≠ TaskStatus.failed →
      (crawl_urls urls startId snap nowStr).getD i (emptyCrawlResponse "" "")
        = emptyCrawlResponse (urls.getD i "") nowStr) ∧
    (∀ i t, i < urls.length → dget snap (startId + i) = some t →
      t.status = TaskStatus.failed → resultFieldsMissing t.result = true →
      ((crawl_urls urls startId snap nowStr).getD i
          (emptyCrawlResponse "" "")).markdown = "" ∧
      ((crawl_urls urls startId snap nowStr).getD i
          (emptyCrawlResponse "" "")).map = [] ∧
      ((crawl_urls urls startId snap nowStr).getD i
          (emptyCrawlResponse "" "")).url = urls.getD i "") := by
  refine ⟨?_, ?_, ?_, ?_⟩
  · simp [crawl_urls, crawlTaskIds]
  · intro i hi hnone
    rw [crawl_urls_getD urls startId snap nowStr i hi]
    simp [crawlEntry, waitInfoFor, hnone, crawlTaskIds,
      findIdx_range' startId urls.length i hi, emptyCrawlResponse]
  · intro i t hi hget hc hf
    rw [crawl_urls_getD urls startId snap nowStr i hi]
    have hcb : (t.status == TaskStatus.completed) = false := by
      simpa using hc
    have hfb : (t.status == TaskStatus.failed) = false := by
      simpa using hf
    simp [crawlEntry, waitInfoFor, hget, hcb, hfb, crawlTaskIds,
      findIdx_range' startId urls.length i hi, emptyCrawlResponse]
  · intro i t hi hget hf hmiss
    rw [crawl_urls_getD urls startId snap nowStr i hi]
    match hr : t.result with
    | none =>
      simp [crawlEntry, waitInfoFor, hget, hf, hr, crawlTaskIds,
        findIdx_range' startId urls.length i hi]
    | some r =>
      rw [hr] at hmiss
      simp only [resultFieldsMissing, Bool.and_eq_true, beq_iff_eq] at hmiss
      obtain ⟨⟨h1, h2⟩, h3⟩ := hmiss
      simp [crawlEntry, waitInfoFor, hget, hf, hr, crawlTaskIds,
        findIdx_range' startId urls.length i hi, h1, h2, h3]

/-- C6 witness: two URLs, the first task failed with an error-only result,
the second still processing at the deadline. -/
theorem crawl_response_per_url_witness :
    (crawl_urls exUrlsC6 0 exSnapC6 "now").length = 2 ∧
    ((crawl_urls exUrlsC6 0 exSnapC6 "now").getD 0
        (emptyCrawlResponse "" "")).markdown = "" ∧
    ((crawl_urls exUrlsC6 0 exSnapC6 "now").getD 0
        (emptyCrawlResponse "" "")).url = "https://x" ∧
    (crawl_urls exUrlsC6 0 exSnapC6 "now").getD 1 (emptyCrawlResponse "" "")
      = emptyCrawlResponse "https://y" "now" := by
  have h := crawl_response_per_url exUrlsC6 0 exSnapC6 "now" (by decide)
  have h0 := h.2.2.2 0 exCrawlFailed (by decide) (by decide) (by decide) (by decide)
  have h1 := h.2.2.1 1 exCrawlRunning (by decide) (by decide) (by decide) (by decide)
  refine ⟨?_, h0.1, ?_, ?_⟩
  · rw [h.1]
    rfl
  · rw [h0.2.2]
    rfl
  · rw [h1]
    rfl

/-! ## Claim C7: leader-selection decision rule -/

/-- C7: when the selection timer fires on a backup (`is_active_leader =
false`): a primary observed active aborts the selection with no role
change and the failed flag clear; otherwise (primary believed failed and
not observed active) backup-1 always becomes leader when it is selecting,
and backup-2 becomes leader exactly when backup-1 is not observed alive;
in every path `leader_selection_in_progress` ends up cleared. -/
theorem select_new_leader_spec (n : SummarizerLeader)
    (hfol : n.is_active_leader = false) :
    ((n.select_new_leader).1.leader_selection_in_progress = false) ∧
    (n.heartbeat.is_node_active PRIMARY_LEADER_ID = true →
      (n.select_new_leader).2 = false ∧
      (n.select_new_leader).1.is_active_leader = false ∧
      (n.select_new_leader).1.primary_leader_failed = false) ∧
    (n.primary_leader_failed = true →
      n.heartbeat.is_node_active PRIMARY_LEADER_ID = false →
      n.node_id = "leader-backup-1" →
      (n.select_new_leader).2 = true ∧
      (n.select_new_leader).1.is_active_leader = true) ∧
    (n.primary_leader_failed = true →
      n.heartbeat.is_node_active PRIMARY_LEADER_ID = false →
      n.node_id = "leader-backup-2" →
      (n.select_new_leader).2 = !n.heartbeat.is_node_active "leader-backup-1" ∧
      (n.select_new_leader).1.is_active_leader
        = !n.heartbeat.is_node_active "leader-backup-1") := by
  refine ⟨?_, ?_, ?_, ?_⟩
  · unfold SummarizerLeader.select_new_leader
    dsimp only
    repeat' split
    all_goals rfl
  · intro hp
    have hact : (!n.primary_leader_failed || n.is_active_leader) = true ∨
        (!n.primary_leader_failed || n.is_active_leader) = false := by
      cases (!n.primary_leader_failed || n.is_active_leader) <;> simp
    by_cases hf : n.primary_leader_failed
    · simp [SummarizerLeader.select_new_leader, hf, hfol, hp]
    · simp [SummarizerLeader.select_new_leader, hf, hfol,
        Bool.eq_false_iff.mpr hf]
  · intro hf hp heq
    have hne1 : ("leader-backup-1" : String) ≠ "leader-backup-2" := by decide
    unfold SummarizerLeader.select_new_leader
    by_cases hb2 : n.heartbeat.is_node_active "leader-backup-2"
    · simp [hf, hfol, hp, heq, BACKUP_LEADER_IDS, hb2, hne1,
        SummarizerLeader.become_leader]
    · simp [hf, hfol, hp, heq, BACKUP_LEADER_IDS, hb2, hne1,
        SummarizerLeader.become_leader]
  · intro hf hp heq
    have hne2 : ("leader-backup-2" : String) ≠ "leader-backup-1" := by decide
    unfold SummarizerLeader.select_new_leader
    by_cases hb1 : n.heartbeat.is_node_active "leader-backup-1"
    · simp [hf, hfol, hp, heq, BACKUP_LEADER_IDS, hb1, hne2,
        SummarizerLeader.become_leader]
    · simp [hf, hfol, hp, heq, BACKUP_LEADER_IDS, hb1, hne2,
        SummarizerLeader.become_leader]

/-- C7 witness: backup-2 with the primary failed and backup-1 alive does
not take over, and its selection flag is cleared. -/
theorem select_new_leader_spec_witness :
    (exBackup2.select_new_leader).2 = false ∧
    (exBackup2.select_new_leader).1.is_active_leader = false ∧
    (exBackup2.select_new_leader).1.leader_selection_in_progress = false := by
  have h := select_new_leader_spec exBackup2 rfl
  have hb := h.2.2.2 rfl (by decide) rfl
  refine ⟨?_, ?_, h.1⟩
  · rw [hb.1]
    decide
  · rw [hb.2]
    decide

/-! ## Claim C10: active / failed disjointness invariant -/

/-- `receive_heartbeat` preserves the disjointness invariant. -/
theorem hbdisjoint_recv (s : HeartbeatService) (hb : HeartbeatMessage)
    (now : Nat) (h : HBDisjoint s) :
    HBDisjoint (s.receive_heartbeat hb now).1 := by
  intro p hp hmem
  simp only [HeartbeatService.receive_heartbeat] at hp hmem
  rw [mem_dkeys_dinsert] at hp
  by_cases hfs : shas s.failed_nodes hb.node_id
  · simp only [hfs, if_true] at hmem
    rw [mem_sremove] at hmem
    rcases hp with hp | hp
    · exact hmem.2 (hp ▸ rfl)
    · exact h p hp hmem.1
  · simp only [hfs, if_false] at hmem
    rcases hp with hp | hp
    · have : ¬ hb.node_id ∈ s.failed_nodes := by
        simpa [shas] using hfs
      exact this (hp ▸ hmem)
    · exact h p hp hmem

/-- One liveness-check loop iteration preserves the disjointness
invariant. -/
theorem hbdisjoint_check_one (now : Nat)
    (acc : HeartbeatService × List StatusEvent) (id : String)
    (h : HBDisjoint acc.1) :
    HBDisjoint (HeartbeatService.check_one now acc id).1 := by
  rcases acc with ⟨s, events⟩
  simp only at h
  unfold HeartbeatService.check_one
  dsimp only
  split
  · exact h
  · split
    · split
      · intro p hp hmem
        dsimp only at hp hmem
        rw [mem_dkeys_dremove] at hp
        rw [mem_sinsert] at hmem
        rcases hmem with hmem | hmem
        · exact hp.1 hmem
        · exact h p hp.2 hmem
      · exact h
    · split
      · split
        · exact h
        · exact h
      · exact h

/-- The whole liveness check preserves the disjointness invariant. -/
theorem hbdisjoint_foldl (now : Nat) (ids : List String)
    (acc : HeartbeatService × List StatusEvent) (h : HBDisjoint acc.1) :
    HBDisjoint ((ids.foldl (HeartbeatService.check_one now) acc).1) := by
  induction ids generalizing acc with
  | nil => exact h
  | cons k ks ih => exact ih _ (hbdisjoint_check_one now acc k h)

/-- Every reachable heartbeat state satisfies the disjointness
invariant. -/
theorem hbdisjoint_reachable (s : HeartbeatService) (h : HBReachable s) :
    HBDisjoint s := by
  induction h with
  | init node_id node_type =>
    intro p hp
    simp [HeartbeatService.init, dkeys] at hp
  | recv s hb now _ ih => exact hbdisjoint_recv s hb now ih
  | check s now _ ih =>
    exact hbdisjoint_foldl now (dkeys s.active_nodes) (s, []) ih

/-- C10: in every reachable heartbeat state the active map and the failed
set are disjoint, and `is_node_active p` holds exactly when `p` is in the
active map. -/
theorem heartbeat_active_failed_disjoint (s : HeartbeatService)
    (h : HBReachable s) :
    (∀ p, p ∈ dkeys s.active_nodes → p ∉ s.failed_nodes) ∧
    (∀ p, s.is_node_active p = true ↔ p ∈ dkeys s.active_nodes) := by
  have hd := hbdisjoint_reachable s h
  refine ⟨hd, ?_⟩
  intro p
  unfold HeartbeatService.is_node_active
  constructor
  · intro hp
    simp only [Bool.and_eq_true] at hp
    simpa [dhas] using hp.1
  · intro hp
    have h1 : dhas s.active_nodes p = true := by
      simpa [dhas] using hp
    have h2 : shas s.failed_nodes p = false := by
      simpa [shas] using hd p hp
    simp [h1, h2]

/-- C10 witness: in the reachable state obtained by hearing `worker-1`
once, `is_node_active` agrees with active-map membership. -/
theorem heartbeat_active_failed_disjoint_witness :
    exHB1.is_node_active "worker-1" = true ∧
    "worker-1" ∉ exHB1.failed_nodes := by
  have h := heartbeat_active_failed_disjoint exHB1
    (HBReachable.recv exHB0 exPeerMsg 0
      (HBReachable.init "leader-primary" NodeType.primary_leader))
  constructor
  · exact (h.2 "worker-1").mpr (by decide)
  · exact h.1 "worker-1" (by decide)

/-- C4 witness. -/
theorem assign_task_establishes_worker_witness :
    ((dget (exSMassign.assign_task "t1" "worker-2" 7).2.tasks "t1").map
      (fun t => (t.status, t.assigned_worker)))
      = some (TaskStatus.processing, some "worker-2") ∧
    (((exSMassign.get_next_task 7).1).map
      (fun t' => (t'.status, t'.assigned_worker)))
      = some (TaskStatus.processing, none) := by
  constructor
  · exact (assign_task_establishes_worker exSMassign "t1" "worker-2" 7).1 (by decide)
  · have h := (assign_task_establishes_worker exSMassign "t1" "worker-2" 7).2
      exTask [] rfl rfl (by decide)
    simpa using h

end Dawn
